import Mathlib

/-!
Verification of the `BackgroundImage` component of `react-fabric`
(`src/packages/react/src/components/BackgroundImage/index.tsx`).

The component is embedded shallowly: the mutable store, the fabric canvas
and the component-local ref become one explicit state record, and each
effect body / promise callback of the source becomes a pure state-passing
function translated line by line from the source.  Numeric values are
modelled as rationals (the source works with JS numbers used here only in
exact arithmetic: halving, multiplication and the two fit/cover ratios).

External collaborators (the fabric library and the React effect scheduler)
are not part of the repository source; the few operations of theirs that
the component calls are modelled from the spec, each marked by a doc
comment starting with `Modelled from the spec:`.
-/

/-- An image-mutating operation recorded on an image's operation log:
either the dedicated `rotate` call or a generic property `set`, or the
bulk `set` used at attach time. -/
inductive ImgOp where
  | rotate (v : ℚ)
  | setOne (k : String) (v : ℚ)
  | setMany (ps : List (String × ℚ)) (objectCaching : Bool)
deriving DecidableEq, Repr

/-- A fabric image object (`FabricImage`): geometry fields read by the
component (`left`, `top`, `width`, `height`, `scaleX`, `scaleY`), the
generic property map written through `set`, the `objectCaching` flag, an
identity tag standing for JS object identity, and a log of the mutating
operations applied to it. -/
structure FImage where
  id : Nat
  left : ℚ := 0
  top : ℚ := 0
  width : ℚ := 0
  height : ℚ := 0
  scaleX : ℚ := 1
  scaleY : ℚ := 1
  angle : ℚ := 0
  props : List (String × ℚ) := []
  objectCaching : Bool := true
  opLog : List ImgOp := []
deriving DecidableEq, Repr

/-- Modelled from the spec: fabric's `FabricImage.rotate` (external
library).  Rotation is "a dedicated rotate operation" distinct from a
generic property set; it updates the angle and is recorded as such. -/
def FImage.rotate (im : FImage) (v : ℚ) : FImage :=
  { im with angle := v, opLog := im.opLog ++ [ImgOp.rotate v] }

/-- Modelled from the spec: fabric's single-key `FabricImage.set` (external
library), "a generic property set": it stores the key/value pair on the
object and is recorded on the log. -/
def FImage.setKV (im : FImage) (k : String) (v : ℚ) : FImage :=
  { im with props := (k, v) :: im.props.filter (fun p => p.1 ≠ k),
            opLog := im.opLog ++ [ImgOp.setOne k v] }

/-- Modelled from the spec: fabric's object-argument `FabricImage.set`
(external library), used at attach time as
`imageSource.set({...options, objectCaching: false})`. -/
def FImage.setManyKV (im : FImage) (ps : List (String × ℚ)) : FImage :=
  { im with props := ps ++ im.props.filter (fun p => ¬ (ps.map Prod.fst).contains p.1),
            objectCaching := false,
            opLog := im.opLog ++ [ImgOp.setMany ps false] }

/-- The fabric canvas object (`Canvas`): dimensions, the background-image
slot, the object collection, the viewport transform (6-entry matrix,
initially unset), counters for `requestRenderAll` and `renderAll` calls,
whether `getElement()` returns a live element, and the smoothing settings
of its 2D context. -/
structure Canvas where
  width : ℚ
  height : ℚ
  backgroundImage : Option FImage := none
  objects : List FImage := []
  viewportTransform : Option (ℚ × ℚ × ℚ × ℚ × ℚ × ℚ) := none
  renderRequests : Nat := 0
  renders : Nat := 0
  hasElement : Bool := true
  imageSmoothingEnabled : Bool := false
  imageSmoothingQuality : String := "low"
deriving DecidableEq, Repr

/-- Modelled from the spec: fabric's `util.findScaleToFit` (external
library).  "fit mode: fitZoom = min(canvasWidth/imageWidth,
canvasHeight/imageHeight) semantics". -/
def findScaleToFit (source : FImage) (destination : Canvas) : ℚ :=
  min (destination.width / source.width) (destination.height / source.height)

/-- Modelled from the spec: fabric's `util.findScaleToCover` (external
library).  "cover mode: fitZoom = max(canvasWidth/imageWidth,
canvasHeight/imageHeight) semantics". -/
def findScaleToCover (source : FImage) (destination : Canvas) : ℚ :=
  max (destination.width / source.width) (destination.height / source.height)

/-- Modelled from the spec: fabric's `Canvas.remove` (external library),
the detach step of the teardown transition, by which "the previously
attached image is removed from the canvas": the image leaves the object
collection and, when it is the current background image, the background
slot is cleared. -/
def Canvas.removeImage (c : Canvas) (im : FImage) : Canvas :=
  { c with objects := c.objects.filter (fun o => o ≠ im),
           backgroundImage :=
             if c.backgroundImage = some im then none else c.backgroundImage }

/-- The shared store (`ReactFabricState`), restricted to the fields this
component reads or writes: `width`, `height`, `canvas`, `manualZoom`,
`defaultCentered`, `domNode` (modelled by its presence and its
`dataset.src` attribute), the `loading` flag written through `setLoading`,
and the produced fields `fitZoom` and `zoom`.  Produced fields start as
`none` so that a store write is observable. -/
structure Store where
  width : ℚ := 0
  height : ℚ := 0
  canvas : Option Canvas := none
  manualZoom : Option ℚ := none
  defaultCentered : Bool := false
  fitZoom : Option ℚ := none
  zoom : Option ℚ := none
  loading : Bool := false
  domNodePresent : Bool := false
  domNodeDataSrc : Option String := none
deriving DecidableEq, Repr

/-- The full component-visible state: the shared store (which owns the
canvas), the component-local `backgroundImageRef.current`, the record of
`onLoad` invocations, and the log of decode requests issued by
`FabricImage.fromURL` (each entry a requested URL). -/
structure CompState where
  store : Store
  bgRef : Option FImage := none
  onLoadCalls : List FImage := []
  issuedLoads : List String := []
deriving DecidableEq, Repr

/-- The `updateViewport` callback (source lines 56–117), translated
statement by statement: read `canvas`, `manualZoom` (default 1) and
`defaultCentered` from the store; return unchanged unless both the local
image ref and the canvas are present; compute `fitZoom` from the scale
mode, `combinedZoom = fitZoom * manualZoom`; apply the zero-translation
transform; if `defaultCentered` and the canvas has a background image,
compute the centering deltas; apply the final transform, request a
re-render, and write `fitZoom`, `manualZoom` and `zoom` to the store. -/
def updateViewport (scaleToFit scaleToCover : Bool) (st : CompState) : CompState :=
  let manualZoom := st.store.manualZoom.getD 1
  match st.bgRef, st.store.canvas with
  | some img, some canvas =>
      let fitZoom :=
        if scaleToFit then findScaleToFit img canvas
        else if scaleToCover then findScaleToCover img canvas
        else 1
      let combinedZoom := fitZoom * manualZoom
      let canvas1 := { canvas with
        viewportTransform := some (combinedZoom, 0, 0, combinedZoom, 0, 0) }
      let delta : ℚ × ℚ :=
        match (if st.store.defaultCentered then canvas1.backgroundImage else none) with
        | some bg =>
            (canvas1.width / 2 - (bg.left + bg.width * bg.scaleX / 2) * combinedZoom,
             canvas1.height / 2 - (bg.top + bg.height * bg.scaleY / 2) * combinedZoom)
        | none => (0, 0)
      let canvas2 := { canvas1 with
        viewportTransform :=
          some (combinedZoom, 0, 0, combinedZoom, delta.1, delta.2),
        renderRequests := canvas1.renderRequests + 1 }
      { st with store := { st.store with
          canvas := some canvas2,
          fitZoom := some fitZoom,
          manualZoom := some manualZoom,
          zoom := some combinedZoom } }
  | _, _ => st

/-- The synchronous body of the `src` load effect (source lines 127–131):
`if (!src) return` (an empty string is falsy), otherwise read `domNode`
and `setLoading` from the store, call `setLoading(true)`, and issue the
decode request `FabricImage.fromURL(src, {crossOrigin:"anonymous"})`.
The returned flag records whether the effect registered a cleanup
function (the source returns one only after the guard). -/
def runLoadEffect (src : String) (st : CompState) : CompState × Bool :=
  if src = "" then (st, false)
  else
    ({ st with store := { st.store with loading := true },
               issuedLoads := st.issuedLoads ++ [src] },
     true)

/-- The fulfilment callback of the decode promise together with the
`finally` step (source lines 132–158), parametrised by the values the
closure captured at effect time: the extra `options`, the scale-mode
flags, the loaded `src` and whether `domNode` was present.  On resolve:
read `canvas` from the store; if it is present with non-zero (truthy)
width and height, apply `{...options, objectCaching:false}` to the new
image, enable high-quality smoothing, assign the canvas background image
and the local ref, run `updateViewport`, and — since the viewport
transform was just set — invoke `onLoad` (recorded on `onLoadCalls`) and
stamp `domNode.dataset.src`.  The `finally` clause then sets loading
false. -/
def resolveLoad (options : List (String × ℚ)) (scaleToFit scaleToCover : Bool)
    (src : String) (domNode : Bool) (imageSource : FImage)
    (st : CompState) : CompState :=
  let st1 :=
    match st.store.canvas with
    | some canvas =>
        if canvas.width ≠ 0 ∧ canvas.height ≠ 0 then
          let img := imageSource.setManyKV options
          let canvas1 := { canvas with
            imageSmoothingEnabled := true,
            imageSmoothingQuality := "high",
            backgroundImage := some img }
          let st1 := { st with
            store := { st.store with canvas := some canvas1 },
            bgRef := some img }
          let st2 := updateViewport scaleToFit scaleToCover st1
          match st2.store.canvas >>= Canvas.viewportTransform with
          | none => st2
          | some _ =>
              let st3 := { st2 with onLoadCalls := st2.onLoadCalls ++ [img] }
              if domNode then
                { st3 with store := { st3.store with domNodeDataSrc := some src } }
              else st3
        else st
    | none => st
  { st1 with store := { st1.store with loading := false } }

/-- The rejection path of the decode promise (source lines 132–158): the
`then` callback is skipped — "decode failure is currently swallowed" —
and only the `finally` clause runs, clearing the loading flag. -/
def rejectLoad (st : CompState) : CompState :=
  { st with store := { st.store with loading := false } }

/-- The cleanup function returned by the `src` effect (source lines
160–170): read `canvas` from the store; if the local ref holds an image,
`canvas?.remove(...)` it and clear the ref; then, if
`canvas?.getElement()` is live, `canvas.renderAll()`. -/
def cleanupEffect (st : CompState) : CompState :=
  let st1 :=
    match st.bgRef with
    | some img =>
        { st with
          store := { st.store with
            canvas := st.store.canvas.map (fun c => Canvas.removeImage c img) },
          bgRef := none }
    | none => st
  match st1.store.canvas with
  | some c =>
      if c.hasElement then
        { st1 with store := { st1.store with
            canvas := some { c with renders := c.renders + 1 } } }
      else st1
  | none => st1

/-- A change of the `src` prop.  Modelled from the spec: the framework's
effect ordering — "this cleanup is guaranteed to run before any new load
begins for a changed `src`" — sequences the previous effect's cleanup
strictly before the new effect body. -/
def srcChange (newSrc : String) (st : CompState) : CompState × Bool :=
  runLoadEffect newSrc (cleanupEffect st)

/-- Unmount of the component.  Modelled from the spec: on unmount the
framework runs the registered cleanup ("resource cleanup on unmount is
guaranteed via a scoped teardown hook"). -/
def unmount (st : CompState) : CompState :=
  cleanupEffect st

/-- Application of one extra visual property inside the `useDidUpdate`
body (source lines 178–184): the key `"angle"` dispatches to the
dedicated `rotate` operation, any other key to the generic `set`. -/
def applyOption (im : FImage) (kv : String × ℚ) : FImage :=
  if kv.1 = "angle" then im.rotate kv.2 else im.setKV kv.1 kv.2

/-- The operation that `applyOption` records for a given property. -/
def optionOp (kv : String × ℚ) : ImgOp :=
  if kv.1 = "angle" then ImgOp.rotate kv.2 else ImgOp.setOne kv.1 kv.2

/-- The `useDidUpdate` options-sync body (source lines 174–187): if the
local ref holds an image, apply every entry of `options` to it
(`rotate` for `"angle"`, generic `set` otherwise), then
`canvas?.requestRenderAll()`; otherwise do nothing.  Since in the source
`backgroundImageRef.current` and `canvas.backgroundImage` alias the same
object, the background slot is updated alongside the ref whenever it
holds that same image. -/
def syncOptions (options : List (String × ℚ)) (st : CompState) : CompState :=
  match st.bgRef with
  | some img =>
      let img' := options.foldl applyOption img
      let canvas' := st.store.canvas.map (fun c =>
        { c with
          backgroundImage :=
            if c.backgroundImage = some img then some img' else c.backgroundImage,
          renderRequests := c.renderRequests + 1 })
      { st with bgRef := some img', store := { st.store with canvas := canvas' } }
  | none => st

/-- The fitZoom that `updateViewport` computes for a given image, canvas
and scale mode (source lines 62–66), named so theorems can refer to it. -/
def computedFitZoom (scaleToFit scaleToCover : Bool) (img : FImage) (canvas : Canvas) : ℚ :=
  if scaleToFit then findScaleToFit img canvas
  else if scaleToCover then findScaleToCover img canvas
  else 1

/-- The viewport transform currently installed on the canvas held by the
store, if any. -/
def canvasTransform (st : CompState) : Option (ℚ × ℚ × ℚ × ℚ × ℚ × ℚ) :=
  st.store.canvas.bind (fun c => c.viewportTransform)

/-- A concrete 400×200 image placed at (5, 3), used to instantiate the
spec's 800×600 / 400×200 scenario. -/
def demoImg : FImage := { id := 7, left := 5, top := 3, width := 400, height := 200 }

/-- A concrete 800×600 canvas whose background slot holds `demoImg`. -/
def demoCanvas : Canvas := { width := 800, height := 600, backgroundImage := some demoImg }

/-- A component state with `demoCanvas`, `manualZoom = 2`, centering on,
and `demoImg` held by the local ref. -/
def demoState : CompState :=
  { store := { canvas := some demoCanvas, manualZoom := some 2, defaultCentered := true },
    bgRef := some demoImg }

/-- The same state as `demoState` but with centering off. -/
def demoStateNC : CompState :=
  { store := { canvas := some demoCanvas, manualZoom := some 2, defaultCentered := false },
    bgRef := some demoImg }

/-- The same state with `manualZoom` absent from the store (so the default
of 1 applies) and centering off. -/
def demoStateNoMz : CompState :=
  { store := { canvas := some demoCanvas }, bgRef := some demoImg }

/-- A state whose store holds an 800×600 canvas but whose component ref
holds no image. -/
def noImgState : CompState := { store := { canvas := some { width := 800, height := 600 } } }

/-- The image produced by decoding URL "A" in the race scenario. -/
def imgA : FImage := { id := 1, width := 10, height := 10 }

/-- The image produced by decoding URL "B" in the race scenario. -/
def imgB : FImage := { id := 2, width := 20, height := 20 }

/-- The initial state of the race scenario: a live 100×100 canvas, no
image yet. -/
def raceStart : CompState := { store := { canvas := some { width := 100, height := 100 } } }

/-- The race scenario of the spec, step by step: the effect runs for
`src = "A"` and issues A's decode; `src` changes to "B" (cleanup, then
the new effect issues B's decode); B's decode resolves first and
attaches B's image; finally A's stale decode resolves and runs its
attach logic. -/
def raceTrace : CompState :=
  resolveLoad [] false false "A" false imgA
    (resolveLoad [] false false "B" false imgB
      ((srcChange "B" (runLoadEffect "A" raceStart).1).1))

/-- A state with a ready (non-zero) 100×100 canvas and no image. -/
def readyState : CompState := { store := { canvas := some { width := 100, height := 100 } } }

/-- A state whose canvas has zero width, so an attach must be dropped. -/
def zeroState : CompState := { store := { canvas := some { width := 0, height := 100 } } }

/-- Claim C1: with the local image and the canvas present (and all four
dimensions positive), the viewport update stores
fitZoom = min(canvasWidth/imageWidth, canvasHeight/imageHeight) in fit
mode, the corresponding max in cover mode, and 1 when neither flag is
set. -/
theorem updateViewport_fitZoom_modes
    (st : CompState) (img : FImage) (c : Canvas)
    (himg : st.bgRef = some img) (hc : st.store.canvas = some c)
    (hW : 0 < c.width) (hH : 0 < c.height)
    (hw : 0 < img.width) (hh : 0 < img.height) :
    (updateViewport true false st).store.fitZoom
        = some (min (c.width / img.width) (c.height / img.height)) ∧
    (updateViewport false true st).store.fitZoom
        = some (max (c.width / img.width) (c.height / img.height)) ∧
    (updateViewport false false st).store.fitZoom = some 1 := by
  refine ⟨?_, ?_, ?_⟩ <;>
    simp [updateViewport, himg, hc, findScaleToFit, findScaleToCover]

/-- Witness for C1: the spec's concrete scenario — canvas 800×600, image
400×200 — yields fitZoom 2 in fit mode and 3 in cover mode. -/
theorem updateViewport_fitZoom_modes_witness :
    (updateViewport true false demoState).store.fitZoom = some 2 ∧
    (updateViewport false true demoState).store.fitZoom = some 3 := by
  have h := updateViewport_fitZoom_modes demoState demoImg demoCanvas rfl rfl
    (by norm_num [demoCanvas]) (by norm_num [demoCanvas])
    (by norm_num [demoImg]) (by norm_num [demoImg])
  refine ⟨?_, ?_⟩
  · rw [h.1]; norm_num [demoCanvas, demoImg, min_def]
  · rw [h.2.1]; norm_num [demoCanvas, demoImg, max_def]

/-- Claim C2: with the local image and the canvas present, if centering
is on and the canvas has a background image the final transform's
translation is canvasCenter minus the background image's scaled center
(deltaX = width/2 − (left + width·scaleX/2)·combinedZoom, analogously
for Y); if centering is off the translation is (0, 0). -/
theorem updateViewport_centering (stf stc : Bool) (st : CompState)
    (img bg : FImage) (c : Canvas)
    (himg : st.bgRef = some img) (hc : st.store.canvas = some c) :
    (st.store.defaultCentered = true → c.backgroundImage = some bg →
      canvasTransform (updateViewport stf stc st) =
        some (computedFitZoom stf stc img c * st.store.manualZoom.getD 1, 0, 0,
              computedFitZoom stf stc img c * st.store.manualZoom.getD 1,
              c.width / 2 - (bg.left + bg.width * bg.scaleX / 2) *
                (computedFitZoom stf stc img c * st.store.manualZoom.getD 1),
              c.height / 2 - (bg.top + bg.height * bg.scaleY / 2) *
                (computedFitZoom stf stc img c * st.store.manualZoom.getD 1))) ∧
    (st.store.defaultCentered = false →
      canvasTransform (updateViewport stf stc st) =
        some (computedFitZoom stf stc img c * st.store.manualZoom.getD 1, 0, 0,
              computedFitZoom stf stc img c * st.store.manualZoom.getD 1, 0, 0)) := by
  constructor
  · intro hcent hbg
    simp [updateViewport, canvasTransform, computedFitZoom, himg, hc, hcent, hbg]
  · intro hcent
    simp [updateViewport, canvasTransform, computedFitZoom, himg, hc, hcent]

/-- Witness for C2: at canvas 800×600, image at (5, 3) of size 400×200,
manualZoom 2 in fit mode (combinedZoom 4): with centering the transform
is (4, 0, 0, 4, −420, −112); without centering it is (4, 0, 0, 4, 0, 0). -/
theorem updateViewport_centering_witness :
    canvasTransform (updateViewport true false demoState) =
      some (4, 0, 0, 4, -420, -112) ∧
    canvasTransform (updateViewport true false demoStateNC) =
      some (4, 0, 0, 4, 0, 0) := by
  have h1 := (updateViewport_centering true false demoState demoImg demoImg demoCanvas
      rfl rfl).1 rfl rfl
  have h2 := (updateViewport_centering true false demoStateNC demoImg demoImg demoCanvas
      rfl rfl).2 rfl
  constructor
  · rw [h1]
    norm_num [computedFitZoom, findScaleToFit, demoImg, demoCanvas, demoState, min_def]
  · rw [h2]
    norm_num [computedFitZoom, findScaleToFit, demoImg, demoCanvas, demoStateNC, min_def]

/-- Counterexample to claim C3 as stated: a state whose store holds a
canvas but whose component holds no attached image; the viewport update
runs, leaves the state untouched and writes no zoom to the store
(`zoom` stays `none`), contradicting "it writes the computed
combinedZoom ... even when no background image is attached to the
component". -/
theorem updateViewport_no_write_without_image :
    noImgState.store.canvas.isSome = true ∧ noImgState.bgRef = none ∧
    updateViewport true false noImgState = noImgState ∧
    (updateViewport true false noImgState).store.zoom = none :=
  ⟨rfl, rfl, rfl, rfl⟩

/-- Claim C3 (amended): the viewport update writes `zoom` (equal to the
computed combinedZoom), `fitZoom` and `manualZoom` to the store exactly
when both a canvas exists and the component holds an image reference —
the write does not require the canvas's own background-image slot to be
set — and it is a complete no-op when the image reference or the canvas
is absent. -/
theorem updateViewport_store_writes (stf stc : Bool) (st : CompState) :
    (∀ img c, st.bgRef = some img → st.store.canvas = some c →
      (updateViewport stf stc st).store.zoom
          = some (computedFitZoom stf stc img c * st.store.manualZoom.getD 1) ∧
      (updateViewport stf stc st).store.fitZoom = some (computedFitZoom stf stc img c) ∧
      (updateViewport stf stc st).store.manualZoom = some (st.store.manualZoom.getD 1)) ∧
    (st.bgRef = none → updateViewport stf stc st = st) ∧
    (st.store.canvas = none → updateViewport stf stc st = st) := by
  refine ⟨?_, ?_, ?_⟩
  · intro img c himg hc
    refine ⟨?_, ?_, ?_⟩ <;> simp [updateViewport, computedFitZoom, himg, hc]
  · intro h
    simp [updateViewport, h]
  · intro h
    cases hb : st.bgRef <;> simp [updateViewport, h, hb]

/-- Witness for C3 (amended): with image and canvas present the written
zoom is 4; with a canvas but no image the update changes nothing. -/
theorem updateViewport_store_writes_witness :
    (updateViewport true false demoState).store.zoom = some 4 ∧
    updateViewport true false noImgState = noImgState := by
  have h := (updateViewport_store_writes true false demoState).1 demoImg demoCanvas rfl rfl
  have h2 := (updateViewport_store_writes true false noImgState).2.1 rfl
  refine ⟨?_, h2⟩
  rw [h.1]
  norm_num [computedFitZoom, findScaleToFit, demoImg, demoCanvas, demoState, min_def]

/-- Claim C4 (demonstrating the code bug): in the race scenario — `src`
changes from "A" to "B" before A's decode resolves, B's decode resolves
first and then A's stale decode resolves — the image attached after all
loads settle is A's image, both on the component ref and on the canvas,
and not B's: the code has no generation guard, so a stale load's
resolution still runs its attach logic. -/
theorem stale_load_attaches :
    raceTrace.issuedLoads = ["A", "B"] ∧
    raceTrace.bgRef.map FImage.id = some imgA.id ∧
    (raceTrace.store.canvas.bind (fun c => c.backgroundImage)).map FImage.id
        = some imgA.id ∧
    imgA.id ≠ imgB.id := by decide

/-- Claim C5: when an image is attached and a canvas is in the store, the
teardown clears the local reference; on the resulting canvas the removed
image is neither the background image nor among the objects; a full
re-render (`renderAll`) happens exactly when the canvas still has a live
element; the teardown performs no store write (`loading`, `zoom`,
`fitZoom`, `manualZoom` and the issued-load log are untouched, which is
also what "no further store writes after unmount" amounts to, `unmount`
being this cleanup); and on a `src` change the new load is issued on the
already-cleaned state, with only the loading flag and the new decode
request on top of it. -/
theorem teardown_detaches (st : CompState) (img : FImage) (c : Canvas) (s : String)
    (himg : st.bgRef = some img) (hc : st.store.canvas = some c) :
    (cleanupEffect st).bgRef = none ∧
    (∀ c', (cleanupEffect st).store.canvas = some c' →
        c'.backgroundImage ≠ some img ∧ img ∉ c'.objects ∧
        c'.renders = (if c.hasElement then c.renders + 1 else c.renders)) ∧
    (cleanupEffect st).store.loading = st.store.loading ∧
    (cleanupEffect st).store.zoom = st.store.zoom ∧
    (cleanupEffect st).store.fitZoom = st.store.fitZoom ∧
    (cleanupEffect st).store.manualZoom = st.store.manualZoom ∧
    (cleanupEffect st).issuedLoads = st.issuedLoads ∧
    (s ≠ "" → (srcChange s st).1 =
      { cleanupEffect st with
          store := { (cleanupEffect st).store with loading := true },
          issuedLoads := (cleanupEffect st).issuedLoads ++ [s] }) := by
  have hbg : ∀ c', (cleanupEffect st).store.canvas = some c' →
      c'.backgroundImage ≠ some img ∧ img ∉ c'.objects ∧
      c'.renders = (if c.hasElement then c.renders + 1 else c.renders) := by
    intro c' hc'
    cases hEl : c.hasElement <;>
      simp [cleanupEffect, Canvas.removeImage, himg, hc, hEl] at hc' <;>
      subst hc' <;>
      by_cases hb : c.backgroundImage = some img <;>
      simp [hb, List.mem_filter, hEl]
  have hcl : ∀ x, x = cleanupEffect st → x.store.loading = st.store.loading ∧
      x.store.zoom = st.store.zoom ∧ x.store.fitZoom = st.store.fitZoom ∧
      x.store.manualZoom = st.store.manualZoom ∧ x.issuedLoads = st.issuedLoads ∧
      x.bgRef = none := by
    intro x hx
    subst hx
    cases hEl : c.hasElement <;>
      simp [cleanupEffect, Canvas.removeImage, himg, hc, hEl]
  obtain ⟨h1, h2, h3, h4, h5, h6⟩ := hcl _ rfl
  refine ⟨h6, hbg, h1, h2, h3, h4, h5, ?_⟩
  intro hs
  simp [srcChange, runLoadEffect, hs]

/-- Witness for C5: tearing down a state holding `demoImg` clears the ref
and writes nothing to the store's loading flag. -/
theorem teardown_detaches_witness :
    (cleanupEffect demoStateNoMz).bgRef = none ∧
    (cleanupEffect demoStateNoMz).store.loading = demoStateNoMz.store.loading := by
  have h := teardown_detaches demoStateNoMz demoImg demoCanvas "B" rfl rfl
  exact ⟨h.1, h.2.2.1⟩

/-- Claim C6: when a decode resolves with a canvas present whose width
and height are non-zero, the attach succeeds and `onLoad` is invoked
exactly once, with the newly decoded image (carrying the configured
options), which is also the image installed on the ref; when the canvas
is absent or zero-sized the decoded image is dropped silently — the
state is unchanged except for the loading flag clearing, so `onLoad` is
never invoked. -/
theorem resolveLoad_attach_onLoad
    (opts : List (String × ℚ)) (stf stc : Bool) (src : String) (dn : Bool)
    (imageSource : FImage) (st : CompState) :
    (∀ c, st.store.canvas = some c → c.width ≠ 0 → c.height ≠ 0 →
        (resolveLoad opts stf stc src dn imageSource st).onLoadCalls
            = st.onLoadCalls ++ [imageSource.setManyKV opts] ∧
        (resolveLoad opts stf stc src dn imageSource st).bgRef
            = some (imageSource.setManyKV opts)) ∧
    (st.store.canvas = none →
        resolveLoad opts stf stc src dn imageSource st
          = { st with store := { st.store with loading := false } }) ∧
    (∀ c, st.store.canvas = some c → c.width = 0 ∨ c.height = 0 →
        resolveLoad opts stf stc src dn imageSource st
          = { st with store := { st.store with loading := false } }) := by
  refine ⟨?_, ?_, ?_⟩
  · intro c hc hw hh
    cases dn <;>
      constructor <;>
        simp [resolveLoad, updateViewport, hc, hw, hh]
  · intro h
    simp [resolveLoad, h]
  · intro c hc h
    rcases h with h | h <;> simp [resolveLoad, hc, h]

/-- Witness for C6: resolving onto a ready 100×100 canvas records exactly
one `onLoad` call with the decoded image; resolving onto a zero-width
canvas only clears the loading flag. -/
theorem resolveLoad_attach_onLoad_witness :
    (resolveLoad [] false false "u" false imgA readyState).onLoadCalls
        = [imgA.setManyKV []] ∧
    resolveLoad [] false false "u" false imgA zeroState
        = { zeroState with store := { zeroState.store with loading := false } } := by
  have h1 := (resolveLoad_attach_onLoad [] false false "u" false imgA readyState).1
      { width := 100, height := 100 } rfl (by norm_num) (by norm_num)
  have h2 := (resolveLoad_attach_onLoad [] false false "u" false imgA zeroState).2.2
      { width := 0, height := 100 } rfl (Or.inl rfl)
  exact ⟨h1.1, h2⟩

/-- Applying a list of extra properties with the angle/generic dispatch
extends the image's operation log by exactly the corresponding
operations, in order. -/
theorem foldl_applyOption_opLog (opts : List (String × ℚ)) (im : FImage) :
    (opts.foldl applyOption im).opLog = im.opLog ++ opts.map optionOp := by
  induction opts generalizing im with
  | nil => simp
  | cons kv rest ih =>
      by_cases hk : kv.1 = "angle" <;>
        simp [List.foldl_cons, ih, applyOption, optionOp, hk, FImage.rotate, FImage.setKV]

/-- Claim C7: when an image is attached, the options-sync pass applies
every listed property to it — the key "angle" through the dedicated
rotate operation and every other key through the generic set, as the
resulting operation log shows — and requests exactly one canvas
re-render; when no image is attached it is a no-op. -/
theorem syncOptions_applies_and_renders (opts : List (String × ℚ)) (st : CompState) :
    (∀ img, st.bgRef = some img →
        (syncOptions opts st).bgRef = some (opts.foldl applyOption img) ∧
        (opts.foldl applyOption img).opLog = img.opLog ++ opts.map optionOp ∧
        (∀ c, st.store.canvas = some c →
            ∃ c', (syncOptions opts st).store.canvas = some c' ∧
                  c'.renderRequests = c.renderRequests + 1)) ∧
    (st.bgRef = none → syncOptions opts st = st) := by
  constructor
  · intro img himg
    refine ⟨by simp [syncOptions, himg], foldl_applyOption_opLog opts img, ?_⟩
    intro c hc
    refine ⟨{ c with
        backgroundImage :=
          if c.backgroundImage = some img then some (opts.foldl applyOption img)
          else c.backgroundImage,
        renderRequests := c.renderRequests + 1 }, ?_, rfl⟩
    simp [syncOptions, himg, hc]
  · intro h
    simp [syncOptions, h]

/-- Witness for C7: syncing angle 90 and opacity 2 onto an attached image
logs a rotate operation followed by a generic set. -/
theorem syncOptions_applies_and_renders_witness :
    (syncOptions [("angle", 90), ("opacity", 2)] demoStateNoMz).bgRef
        = some ([("angle", (90:ℚ)), ("opacity", 2)].foldl applyOption demoImg) ∧
    ([("angle", (90:ℚ)), ("opacity", 2)].foldl applyOption demoImg).opLog
        = demoImg.opLog ++ [ImgOp.rotate 90, ImgOp.setOne "opacity" 2] := by
  have h := (syncOptions_applies_and_renders [("angle", 90), ("opacity", 2)]
      demoStateNoMz).1 demoImg rfl
  refine ⟨h.1, ?_⟩
  rw [h.2.1]
  decide

/-- Claim C8: for a non-empty `src`, the effect body sets the shared
loading flag and issues the decode (and registers a cleanup); the
completion step clears the flag on every outcome — after any successful
resolution and after any rejection — and a rejection attaches nothing:
ref, canvas and `onLoad` record are untouched. -/
theorem load_sets_and_clears_loading (src : String) (st : CompState) (h : src ≠ "") :
    (runLoadEffect src st).1.store.loading = true ∧
    (runLoadEffect src st).1.issuedLoads = st.issuedLoads ++ [src] ∧
    (runLoadEffect src st).2 = true ∧
    (∀ opts stf stc dn img st2,
        (resolveLoad opts stf stc src dn img st2).store.loading = false) ∧
    (∀ st2, (rejectLoad st2).store.loading = false ∧
        (rejectLoad st2).bgRef = st2.bgRef ∧
        (rejectLoad st2).store.canvas = st2.store.canvas ∧
        (rejectLoad st2).onLoadCalls = st2.onLoadCalls) := by
  refine ⟨by simp [runLoadEffect, h], by simp [runLoadEffect, h], by simp [runLoadEffect, h],
      ?_, ?_⟩
  · intro opts stf stc dn img st2
    simp [resolveLoad]
  · intro st2
    exact ⟨rfl, rfl, rfl, rfl⟩

/-- Witness for C8: loading "A" from the race-start state turns the flag
on, and a rejection turns it back off. -/
theorem load_sets_and_clears_loading_witness :
    (runLoadEffect "A" raceStart).1.store.loading = true ∧
    (rejectLoad (runLoadEffect "A" raceStart).1).store.loading = false := by
  have h := load_sets_and_clears_loading "A" raceStart (by decide)
  exact ⟨h.1, (h.2.2.2.2 _).1⟩

/-- Claim C9: whenever the viewport update writes to the store (image and
canvas present, any non-negative manual zoom), the written zoom value is
exactly the written fitZoom times the written manualZoom, and the
written manualZoom is the store's manualZoom with 1 as its default when
absent. -/
theorem updateViewport_combinedZoom_product
    (stf stc : Bool) (st : CompState) (img : FImage) (c : Canvas)
    (himg : st.bgRef = some img) (hc : st.store.canvas = some c)
    (hmz : 0 ≤ st.store.manualZoom.getD 1) :
    (updateViewport stf stc st).store.zoom =
      some ((updateViewport stf stc st).store.fitZoom.getD 1 *
            (updateViewport stf stc st).store.manualZoom.getD 1) ∧
    (updateViewport stf stc st).store.manualZoom = some (st.store.manualZoom.getD 1) := by
  constructor <;> simp [updateViewport, himg, hc]

/-- Witness for C9: with `manualZoom` absent from the store the default 1
applies and the written zoom is the product of the written factors. -/
theorem updateViewport_combinedZoom_product_witness :
    (0:ℚ) ≤ demoStateNoMz.store.manualZoom.getD 1 ∧
    (updateViewport true false demoStateNoMz).store.zoom =
      some ((updateViewport true false demoStateNoMz).store.fitZoom.getD 1 *
            (updateViewport true false demoStateNoMz).store.manualZoom.getD 1) :=
  ⟨by norm_num [demoStateNoMz],
   (updateViewport_combinedZoom_product true false demoStateNoMz demoImg demoCanvas rfl rfl
      (by norm_num [demoStateNoMz])).1⟩

/-- Claim C10: with the empty string as `src`, the load effect is a
complete no-op: the state is returned unchanged — no loading-flag write,
no decode request, no canvas mutation — and no cleanup is registered. -/
theorem emptySrc_load_effect_noop (st : CompState) :
    runLoadEffect "" st = (st, false) := rfl
